import Mathlib

/-!
Verification of the `mqjms` producer send pipeline (`src/mqjms/ProducerImpl.go`).

The Go source is shallowly embedded: the `ibmmq` native library and the
`jms20subset` interface package are modelled at the interface the spec
describes, and `Send` is translated statement by statement into a pure
function from an environment (the behaviour of the external queue manager
on this call) to a result carrying the returned error, the updated message
and the trace of transport events (open / put / close) in execution order.
-/

namespace MQJMS

/-! ## Constants of the external `ibmmq` transport library.
These are the standard IBM MQ constants (cmqc.h) referenced by the source;
only their identities and distinctness matter for the development. -/

def MQOO_OUTPUT : Nat := 16
def MQOO_FAIL_IF_QUIESCING : Nat := 8192
def MQOO_INPUT_AS_Q_DEF : Nat := 1
def MQOT_Q : Int := 1
def MQPMO_SYNCPOINT : Nat := 2
def MQPMO_NO_SYNCPOINT : Nat := 4
def MQPMO_NEW_MSG_ID : Nat := 64
def MQPER_NOT_PERSISTENT : Int := 0
def MQPER_PERSISTENT : Int := 1
def MQPER_PERSISTENCE_AS_Q_DEF : Int := 2
def MQFMT_STRING : String := "MQSTR   "
def MQFMT_NONE : String := "        "
def MQEI_UNLIMITED : Int := -1

/-- Modelled from the spec: the `jms20subset` package of this repository is
not under `src/`; the spec names the delivery-mode constants PERSISTENT and
NON_PERSISTENT (values from the JMS standard). -/
def DeliveryMode_PERSISTENT : Int := 2

/-- Modelled from the spec: see `DeliveryMode_PERSISTENT`. -/
def DeliveryMode_NON_PERSISTENT : Int := 1

/-- Modelled from the spec: the session transaction-mode flag value for a
transacted session (`jms20subset`, not under `src/`). -/
def JMSContextSESSIONTRANSACTED : Int := 0

/-- Modelled from the spec: the non-transacted (auto-acknowledge) session
mode value (`jms20subset`, not under `src/`). -/
def JMSContextAUTOACKNOWLEDGE : Int := 1

/-! ## Data model -/

/-- The native error value returned by the `ibmmq` library on a failed
open or put; `Send` reads its `MQRC` reason code. -/
structure MQReturn where
  MQCC : Int
  MQRC : Int
  verb : String
  deriving Repr, DecidableEq

/-- The transport message descriptor (`ibmmq.MQMD`), restricted to the
fields the producer touches (`Persistence`, `Format`, `Expiry`) plus the
routing and identity fields the spec tracks across send/receive
(`ReplyToQ` standing for reply-to metadata, `MsgId` for the
transport-assigned message identifier). -/
structure MQMD where
  Persistence : Int
  Format : String
  Expiry : Int
  ReplyToQ : String
  MsgId : String
  deriving Repr, DecidableEq

/-- `ibmmq.NewMQMD()`: a fresh descriptor with the library defaults. -/
def NewMQMD : MQMD :=
  { Persistence := MQPER_PERSISTENCE_AS_Q_DEF
    Format := MQFMT_NONE
    Expiry := MQEI_UNLIMITED
    ReplyToQ := ""
    MsgId := "" }

/-- Modelled from the spec: `jms20subset.CreateJMSException` (not under
`src/`) builds the uniform error shape {human-readable reason, machine
error code, wrapped native cause}. -/
structure JMSException where
  reason : String
  errorCode : String
  linkedErr : Option MQReturn
  deriving Repr, DecidableEq

/-- Modelled from the spec: constructor for the uniform exception shape. -/
def CreateJMSException (reason : String) (errorCode : String)
    (linkedErr : Option MQReturn) : JMSException :=
  { reason := reason, errorCode := errorCode, linkedErr := linkedErr }

/-- Modelled from the spec: a Destination exposes the name of the target
queue (`GetDestinationName`). -/
structure Destination where
  destinationName : String
  deriving Repr, DecidableEq

def Destination.GetDestinationName (d : Destination) : String :=
  d.destinationName

/-- The session/context object (`ContextImpl`), at the interface `Send`
uses: the transaction mode of the session. The queue-manager connection
itself is part of the environment `MQEnv` below. -/
structure ContextImpl where
  sessionMode : Int
  deriving Repr, DecidableEq

/-- `ProducerImpl`: the producer struct of the source. -/
structure ProducerImpl where
  ctx : ContextImpl
  deliveryMode : Int
  timeToLive : Int
  deriving Repr, DecidableEq

/-- The message variants `Send` dispatches over. A `TextMessageImpl`
holds an optional previously assigned descriptor and an optional text
body (`GetText` may return nil); a `BytesMessageImpl` holds an optional
descriptor and its byte content; `other` stands for any unrecognized
variant reaching the `default` branch of the dispatch. -/
inductive Message where
  | text (mqmd : Option MQMD) (body : Option String)
  | bytes (mqmd : Option MQMD) (body : List UInt8)
  | other
  deriving Repr, DecidableEq

/-- The behaviour of the external queue manager on one `Send` call:
whether the open fails (and with which native error), whether the put
fails, the message identifier the queue manager generates for a
successful put under `MQPMO_NEW_MSG_ID`, and the reason-code rendering
function `ibmmq.MQItoString`. -/
structure MQEnv where
  openErr : Option MQReturn
  putErr : Option MQReturn
  genMsgId : String
  mqItoString : String → Int → String

/-- Transport events in execution order, as observed at the `ibmmq`
boundary: the open of the destination (with object name, open options and
success flag), the put (with the descriptor, put-options word and byte
buffer passed to it), and the close of the handle. -/
inductive Event where
  | openEv (objectName : String) (openOptions : Nat) (ok : Bool)
  | putEv (md : MQMD) (pmoOptions : Nat) (buffer : List UInt8)
  | closeEv
  deriving Repr, DecidableEq

/-- The outcome of a `Send` call: a normal return carrying the returned
error (nil = `none`), the message value after the call (its descriptor
field may have been written), and the event trace; or a `log.Fatal`
abort (which terminates the process, so deferred closes do not run),
with the trace up to that point. -/
inductive SendResult where
  | returns (retErr : Option JMSException) (msg : Message) (trace : List Event)
  | fatal (e : JMSException) (trace : List Event)
  deriving Repr, DecidableEq

def SendResult.trace : SendResult → List Event
  | .returns _ _ t => t
  | .fatal _ t => t

def SendResult.isFatal : SendResult → Bool
  | .returns _ _ _ => false
  | .fatal _ _ => true

/-! ## The send pipeline -/

/-- Go conversion `int32(x)`: truncate to the low 32 bits, interpreted as
a signed two's-complement value. -/
def int32cast (x : Int) : Int :=
  (x + 2 ^ 31) % 2 ^ 32 - 2 ^ 31

/-- Go integer division truncates toward zero, i.e. `Int.tdiv`. -/
def goDiv (a b : Int) : Int := Int.tdiv a b

/-- Lines 162-169 of `ProducerImpl.go`: the block that normalizes a
native error (from either the open or the put) into a `JMSException`,
or returns nil when there was no error. -/
def errorBlock (env : MQEnv) (err : Option MQReturn) : Option JMSException :=
  match err with
  | some e =>
    let rcInt : Int := e.MQRC
    let errCode : String := toString rcInt
    let reason : String := env.mqItoString "RC" rcInt
    some (CreateJMSException reason errCode (some e))
  | none => none

/-- Lines 146-158 of `ProducerImpl.go`, shared tail of both recognized
message variants: apply the producer time-to-live to the put descriptor,
invoke the put, and (because the descriptor stored on the message by the
switch aliases the one handed to the put) surface the final descriptor
value on the message. `store` rebuilds the message variant around the
final descriptor value. On a successful put the queue manager writes the
generated message identifier into the descriptor. -/
def finishPut (env : MQEnv) (producer : ProducerImpl) (putmqmd : MQMD)
    (pmoOptions : Nat) (buffer : List UInt8) (trace0 : List Event)
    (store : MQMD → Message) : SendResult :=
  let putmqmd :=
    if producer.timeToLive > 0 then
      { putmqmd with Expiry := goDiv (int32cast producer.timeToLive) 100 }
    else putmqmd
  match env.putErr with
  | none =>
    let finalmd := { putmqmd with MsgId := env.genMsgId }
    SendResult.returns (errorBlock env none) (store finalmd)
      (trace0 ++ [Event.putEv putmqmd pmoOptions buffer, Event.closeEv])
  | some putFailure =>
    SendResult.returns (errorBlock env (some putFailure)) (store putmqmd)
      (trace0 ++ [Event.putEv putmqmd pmoOptions buffer, Event.closeEv])

/-- `ProducerImpl.Send` (lines 57-173 of `ProducerImpl.go`), translated
statement by statement. The open options, descriptor configuration,
syncpoint calculation, type dispatch with descriptor adoption and
write-back, TTL conversion, put, deferred close and error normalization
follow the source; the `ibmmq` open is modelled at its interface (on
failure it yields the empty `MQObject`, so the deferred close is not
registered — spec: on open failure no handle exists and no release is
needed). -/
def Send (env : MQEnv) (producer : ProducerImpl) (dest : Destination)
    (msg : Message) : SendResult :=
  let openOptions : Nat :=
    (MQOO_OUTPUT + MQOO_FAIL_IF_QUIESCING) ||| MQOO_INPUT_AS_Q_DEF
  match env.openErr with
  | some openFailure =>
    SendResult.returns (errorBlock env (some openFailure)) msg
      [Event.openEv dest.GetDestinationName openOptions false]
  | none =>
    let trace0 := [Event.openEv dest.GetDestinationName openOptions true]
    let putmqmd := NewMQMD
    let syncpointSetting :=
      if producer.ctx.sessionMode = JMSContextSESSIONTRANSACTED then
        MQPMO_SYNCPOINT
      else
        MQPMO_NO_SYNCPOINT
    let pmoOptions : Nat := syncpointSetting ||| MQPMO_NEW_MSG_ID
    let putmqmd :=
      { putmqmd with
          Persistence :=
            if producer.deliveryMode = DeliveryMode_NON_PERSISTENT then
              MQPER_NOT_PERSISTENT
            else
              MQPER_PERSISTENT }
    match msg with
    | Message.text prior body =>
      let putmqmd := match prior with
        | some d => d
        | none => putmqmd
      let putmqmd := { putmqmd with Format := MQFMT_STRING }
      let buffer : List UInt8 := match body with
        | some s => s.data.flatMap String.utf8EncodeChar
        | none => []
      finishPut env producer putmqmd pmoOptions buffer trace0
        (fun md => Message.text (some md) body)
    | Message.bytes prior body =>
      let putmqmd := match prior with
        | some d => d
        | none => putmqmd
      let putmqmd := { putmqmd with Format := MQFMT_NONE }
      let buffer : List UInt8 := body
      finishPut env producer putmqmd pmoOptions buffer trace0
        (fun md => Message.bytes (some md) body)
    | Message.other =>
      SendResult.fatal
        (CreateJMSException "UnexpectedMessageType"
          "UnexpectedMessageType-send1" none) trace0

/-! ## Producer option accessors -/

/-- `ProducerImpl.SetDeliveryMode` (lines 178-194): store the mode only
if it is one of the two permitted values, otherwise print a warning and
leave the stored mode unchanged; the producer itself is returned for
chaining. -/
def SetDeliveryMode (producer : ProducerImpl) (mode : Int) : ProducerImpl :=
  if mode = DeliveryMode_PERSISTENT ∨ mode = DeliveryMode_NON_PERSISTENT then
    { producer with deliveryMode := mode }
  else
    producer

/-- `ProducerImpl.GetDeliveryMode` (lines 198-200). -/
def GetDeliveryMode (producer : ProducerImpl) : Int :=
  producer.deliveryMode

/-- `ProducerImpl.SetTimeToLive` (lines 205-220): store only a
non-negative value, otherwise print a warning and leave the stored value
unchanged; the producer itself is returned for chaining. -/
def SetTimeToLive (producer : ProducerImpl) (timeToLive : Int) : ProducerImpl :=
  if timeToLive ≥ 0 then
    { producer with timeToLive := timeToLive }
  else
    producer

/-- `ProducerImpl.GetTimeToLive` (lines 224-226). -/
def GetTimeToLive (producer : ProducerImpl) : Int :=
  producer.timeToLive

/-- Modelled from the spec: the session factory that creates producers is
not under `src/`; the spec states the default producer state is
NON_PERSISTENT and time-to-live 0 (unlimited). -/
def createProducer (ctx : ContextImpl) : ProducerImpl :=
  { ctx := ctx, deliveryMode := DeliveryMode_NON_PERSISTENT, timeToLive := 0 }

/-! ## Trace observations -/

def Event.isOpen : Event → Bool
  | .openEv _ _ _ => true
  | _ => false

def Event.isPut : Event → Bool
  | .putEv _ _ _ => true
  | _ => false

def Event.isClose : Event → Bool
  | .closeEv => true
  | _ => false

def openCount (t : List Event) : Nat := (t.filter Event.isOpen).length

def putCount (t : List Event) : Nat := (t.filter Event.isPut).length

def closeCount (t : List Event) : Nat := (t.filter Event.isClose).length

/-- The arguments of the put calls in a trace, in order. -/
def putCalls (t : List Event) : List (MQMD × Nat × List UInt8) :=
  t.foldr (fun e acc =>
    match e with
    | .putEv md opts buf => (md, opts, buf) :: acc
    | _ => acc) []

/-- The descriptor field the message variant carries. -/
def Message.descriptor : Message → Option MQMD
  | .text d _ => d
  | .bytes d _ => d
  | .other => none

/-- The error returned by a normal return of `Send` (`none` on the fatal
path, which does not return). -/
def SendResult.retErr : SendResult → Option JMSException
  | .returns e _ _ => e
  | .fatal _ _ => none

/-- The message value after a normal return of `Send`. -/
def SendResult.msgAfter (orig : Message) : SendResult → Message
  | .returns _ m _ => m
  | .fatal _ _ => orig

/-! ## Concrete fixtures used by witness and counterexample theorems -/

/-- A concrete rendering function standing in for `ibmmq.MQItoString`. -/
def itoStr : String → Int → String := fun c rc => c ++ toString rc

/-- Environment where both the open and the put succeed. -/
def envOK : MQEnv :=
  { openErr := none, putErr := none, genMsgId := "ID:414D51", mqItoString := itoStr }

/-- Native failure of MQOPEN (reason 2085, unknown object name). -/
def openFailRet : MQReturn := { MQCC := 2, MQRC := 2085, verb := "MQOPEN" }

/-- Native failure of MQPUT (reason 2053, queue full). -/
def putFailRet : MQReturn := { MQCC := 2, MQRC := 2053, verb := "MQPUT" }

/-- Environment where the open fails. -/
def envOpenFail : MQEnv := { envOK with openErr := some openFailRet }

/-- Environment where the open succeeds and the put fails. -/
def envPutFail : MQEnv := { envOK with putErr := some putFailRet }

/-- A non-transacted session context. -/
def ctxA : ContextImpl := { sessionMode := JMSContextAUTOACKNOWLEDGE }

/-- A transacted session context. -/
def ctxT : ContextImpl := { sessionMode := JMSContextSESSIONTRANSACTED }

def destQ1 : Destination := { destinationName := "Q1" }

/-- A freshly created producer on the non-transacted context. -/
def prodDefault : ProducerImpl := createProducer ctxA

def msgHello : Message := Message.text none (some "hello")

end MQJMS

namespace MQJMS

/-! ## Characterization of the send pipeline

Abbreviations for the descriptor and options actually handed to the put,
together with lemmas showing `Send` produces exactly them. These are
proof-side abbreviations of the expressions inside `Send`, not a second
model. -/

/-- The put-options word `Send` builds (lines 84-92). -/
def pmoOptionsOf (producer : ProducerImpl) : Nat :=
  (if producer.ctx.sessionMode = JMSContextSESSIONTRANSACTED then
    MQPMO_SYNCPOINT
  else
    MQPMO_NO_SYNCPOINT) ||| MQPMO_NEW_MSG_ID

/-- The fresh descriptor after the persistence configuration
(lines 81, 96-100). -/
def freshMD (producer : ProducerImpl) : MQMD :=
  { NewMQMD with
      Persistence :=
        if producer.deliveryMode = DeliveryMode_NON_PERSISTENT then
          MQPER_NOT_PERSISTENT
        else
          MQPER_PERSISTENT }

/-- The time-to-live application (lines 146-152). -/
def ttlApply (producer : ProducerImpl) (md : MQMD) : MQMD :=
  if producer.timeToLive > 0 then
    { md with Expiry := goDiv (int32cast producer.timeToLive) 100 }
  else md

/-- The byte buffer built for a text message (lines 120-123): the Go
conversion of a string to its UTF-8 bytes. -/
def textBuf : Option String → List UInt8
  | some s => s.data.flatMap String.utf8EncodeChar
  | none => []

/-- The descriptor handed to the put for a text message: the prior
descriptor if the message carries one, else the fresh one; format tag set
to string; time-to-live applied. -/
def putMDText (producer : ProducerImpl) (prior : Option MQMD) : MQMD :=
  ttlApply producer { prior.getD (freshMD producer) with Format := MQFMT_STRING }

/-- The descriptor handed to the put for a bytes message. -/
def putMDBytes (producer : ProducerImpl) (prior : Option MQMD) : MQMD :=
  ttlApply producer { prior.getD (freshMD producer) with Format := MQFMT_NONE }

/-- The open event of a send on this destination. -/
def openedEv (dest : Destination) (ok : Bool) : Event :=
  Event.openEv dest.GetDestinationName
    ((MQOO_OUTPUT + MQOO_FAIL_IF_QUIESCING) ||| MQOO_INPUT_AS_Q_DEF) ok

lemma send_text_put_ok (env : MQEnv) (producer : ProducerImpl)
    (dest : Destination) (prior : Option MQMD) (body : Option String)
    (hopen : env.openErr = none) (hput : env.putErr = none) :
    Send env producer dest (Message.text prior body) =
      SendResult.returns none
        (Message.text (some { putMDText producer prior with MsgId := env.genMsgId }) body)
        [openedEv dest true,
         Event.putEv (putMDText producer prior) (pmoOptionsOf producer) (textBuf body),
         Event.closeEv] := by
  cases prior <;> cases body <;>
    simp [Send, hopen, hput, finishPut, errorBlock, putMDText, ttlApply,
      freshMD, pmoOptionsOf, textBuf, openedEv, Option.getD]

lemma send_text_put_fail (env : MQEnv) (producer : ProducerImpl)
    (dest : Destination) (prior : Option MQMD) (body : Option String)
    (e : MQReturn) (hopen : env.openErr = none) (hput : env.putErr = some e) :
    Send env producer dest (Message.text prior body) =
      SendResult.returns
        (some (CreateJMSException (env.mqItoString "RC" e.MQRC)
          (toString e.MQRC) (some e)))
        (Message.text (some (putMDText producer prior)) body)
        [openedEv dest true,
         Event.putEv (putMDText producer prior) (pmoOptionsOf producer) (textBuf body),
         Event.closeEv] := by
  cases prior <;> cases body <;>
    simp [Send, hopen, hput, finishPut, errorBlock, putMDText, ttlApply,
      freshMD, pmoOptionsOf, textBuf, openedEv, Option.getD]

lemma send_bytes_put_ok (env : MQEnv) (producer : ProducerImpl)
    (dest : Destination) (prior : Option MQMD) (body : List UInt8)
    (hopen : env.openErr = none) (hput : env.putErr = none) :
    Send env producer dest (Message.bytes prior body) =
      SendResult.returns none
        (Message.bytes (some { putMDBytes producer prior with MsgId := env.genMsgId }) body)
        [openedEv dest true,
         Event.putEv (putMDBytes producer prior) (pmoOptionsOf producer) body,
         Event.closeEv] := by
  cases prior <;>
    simp [Send, hopen, hput, finishPut, errorBlock, putMDBytes, ttlApply,
      freshMD, pmoOptionsOf, openedEv, Option.getD]

lemma send_bytes_put_fail (env : MQEnv) (producer : ProducerImpl)
    (dest : Destination) (prior : Option MQMD) (body : List UInt8)
    (e : MQReturn) (hopen : env.openErr = none) (hput : env.putErr = some e) :
    Send env producer dest (Message.bytes prior body) =
      SendResult.returns
        (some (CreateJMSException (env.mqItoString "RC" e.MQRC)
          (toString e.MQRC) (some e)))
        (Message.bytes (some (putMDBytes producer prior)) body)
        [openedEv dest true,
         Event.putEv (putMDBytes producer prior) (pmoOptionsOf producer) body,
         Event.closeEv] := by
  cases prior <;>
    simp [Send, hopen, hput, finishPut, errorBlock, putMDBytes, ttlApply,
      freshMD, pmoOptionsOf, openedEv, Option.getD]

lemma send_open_fail (env : MQEnv) (producer : ProducerImpl)
    (dest : Destination) (msg : Message) (e : MQReturn)
    (hopen : env.openErr = some e) :
    Send env producer dest msg =
      SendResult.returns
        (some (CreateJMSException (env.mqItoString "RC" e.MQRC)
          (toString e.MQRC) (some e)))
        msg [openedEv dest false] := by
  simp [Send, hopen, errorBlock, openedEv]

lemma putCalls_send_text (env : MQEnv) (producer : ProducerImpl)
    (dest : Destination) (prior : Option MQMD) (body : Option String)
    (hopen : env.openErr = none) :
    putCalls (Send env producer dest (Message.text prior body)).trace =
      [(putMDText producer prior, pmoOptionsOf producer, textBuf body)] := by
  cases hput : env.putErr with
  | none =>
    rw [send_text_put_ok env producer dest prior body hopen hput]
    simp [putCalls, SendResult.trace, openedEv]
  | some e =>
    rw [send_text_put_fail env producer dest prior body e hopen hput]
    simp [putCalls, SendResult.trace, openedEv]

lemma putCalls_send_bytes (env : MQEnv) (producer : ProducerImpl)
    (dest : Destination) (prior : Option MQMD) (body : List UInt8)
    (hopen : env.openErr = none) :
    putCalls (Send env producer dest (Message.bytes prior body)).trace =
      [(putMDBytes producer prior, pmoOptionsOf producer, body)] := by
  cases hput : env.putErr with
  | none =>
    rw [send_bytes_put_ok env producer dest prior body hopen hput]
    simp [putCalls, SendResult.trace, openedEv]
  | some e =>
    rw [send_bytes_put_fail env producer dest prior body e hopen hput]
    simp [putCalls, SendResult.trace, openedEv]

/-! ## Claim theorems -/

/-- **C1.** For every call to `Send`, if opening the destination handle
succeeds then the handle is opened exactly once and closed exactly once
before `Send` returns, on every exit path (the trace is exactly
open-put-close, so the close also happens when the put fails); if the
open fails, no put is attempted and no close of a nonexistent handle is
attempted. No send leaks a transport handle. (The dispatch on a
recognized message variant is assumed; the unrecognized-variant branch
aborts the process and never returns.) -/
theorem send_handle_discipline (env : MQEnv) (producer : ProducerImpl)
    (dest : Destination) (msg : Message) :
    (env.openErr = none → msg ≠ Message.other →
      openCount (Send env producer dest msg).trace = 1 ∧
      closeCount (Send env producer dest msg).trace = 1 ∧
      (Send env producer dest msg).isFatal = false ∧
      ∃ md opts buf,
        (Send env producer dest msg).trace =
          [Event.openEv dest.GetDestinationName
            ((MQOO_OUTPUT + MQOO_FAIL_IF_QUIESCING) ||| MQOO_INPUT_AS_Q_DEF) true,
           Event.putEv md opts buf, Event.closeEv]) ∧
    (∀ e, env.openErr = some e →
      (Send env producer dest msg).trace =
        [Event.openEv dest.GetDestinationName
          ((MQOO_OUTPUT + MQOO_FAIL_IF_QUIESCING) ||| MQOO_INPUT_AS_Q_DEF) false] ∧
      putCount (Send env producer dest msg).trace = 0 ∧
      closeCount (Send env producer dest msg).trace = 0) := by
  constructor
  · intro hopen hmsg
    cases msg with
    | text prior body =>
      cases hput : env.putErr with
      | none =>
        simp [Send, hopen, finishPut, hput, openCount, closeCount,
          SendResult.trace, SendResult.isFatal, List.filter, Event.isOpen,
          Event.isClose]
      | some e =>
        simp [Send, hopen, finishPut, hput, openCount, closeCount,
          SendResult.trace, SendResult.isFatal, List.filter, Event.isOpen,
          Event.isClose]
    | bytes prior body =>
      cases hput : env.putErr with
      | none =>
        simp [Send, hopen, finishPut, hput, openCount, closeCount,
          SendResult.trace, SendResult.isFatal, List.filter, Event.isOpen,
          Event.isClose]
      | some e =>
        simp [Send, hopen, finishPut, hput, openCount, closeCount,
          SendResult.trace, SendResult.isFatal, List.filter, Event.isOpen,
          Event.isClose]
    | other => exact absurd rfl hmsg
  · intro e hopen
    simp [Send, hopen, putCount, closeCount, SendResult.trace, List.filter,
      Event.isPut, Event.isClose]

/-- Witness for C1 at concrete inputs: a successful send of a text message
opens and closes exactly once, and an open failure produces no put and no
close. -/
theorem send_handle_discipline_witness :
    (openCount (Send envOK prodDefault destQ1 msgHello).trace = 1 ∧
      closeCount (Send envOK prodDefault destQ1 msgHello).trace = 1) ∧
    (putCount (Send envOpenFail prodDefault destQ1 msgHello).trace = 0 ∧
      closeCount (Send envOpenFail prodDefault destQ1 msgHello).trace = 0) := by
  refine ⟨?_, ?_⟩
  · have h := (send_handle_discipline envOK prodDefault destQ1 msgHello).1
      rfl (by decide)
    exact ⟨h.1, h.2.1⟩
  · have h := (send_handle_discipline envOpenFail prodDefault destQ1 msgHello).2
      openFailRet rfl
    exact ⟨h.2.1, h.2.2⟩

/-- **C7.** `SetDeliveryMode` with any value other than PERSISTENT or
NON_PERSISTENT leaves the producer unchanged (and returns the producer
itself); `SetTimeToLive` with any negative value leaves the producer
unchanged and raises no error; valid arguments are stored and returned by
the corresponding getter. -/
theorem setters_validation (p : ProducerImpl) (mode t : Int) :
    (mode ≠ DeliveryMode_PERSISTENT → mode ≠ DeliveryMode_NON_PERSISTENT →
      SetDeliveryMode p mode = p) ∧
    (t < 0 → SetTimeToLive p t = p) ∧
    (mode = DeliveryMode_PERSISTENT ∨ mode = DeliveryMode_NON_PERSISTENT →
      GetDeliveryMode (SetDeliveryMode p mode) = mode) ∧
    (0 ≤ t → GetTimeToLive (SetTimeToLive p t) = t) := by
  refine ⟨?_, ?_, ?_, ?_⟩
  · intro h1 h2
    simp [SetDeliveryMode, h1, h2]
  · intro h
    simp [SetTimeToLive, not_le.mpr h]
  · intro h
    simp [SetDeliveryMode, GetDeliveryMode, h]
  · intro h
    simp [SetTimeToLive, GetTimeToLive, h]

/-- Witness for C7 at concrete inputs: mode 7 is rejected, TTL -1 is
rejected, and the two valid settings round-trip through the getters. -/
theorem setters_validation_witness :
    SetDeliveryMode prodDefault 7 = prodDefault ∧
    SetTimeToLive prodDefault (-1) = prodDefault ∧
    GetDeliveryMode (SetDeliveryMode prodDefault DeliveryMode_PERSISTENT) =
      DeliveryMode_PERSISTENT ∧
    GetTimeToLive (SetTimeToLive prodDefault 5000) = 5000 := by
  refine ⟨?_, ?_, ?_, ?_⟩
  · exact (setters_validation prodDefault 7 0).1 (by decide) (by decide)
  · exact (setters_validation prodDefault 0 (-1)).2.1 (by decide)
  · exact (setters_validation prodDefault DeliveryMode_PERSISTENT 0).2.2.1
      (Or.inl rfl)
  · exact (setters_validation prodDefault 0 5000).2.2.2 (by decide)

/-! ## Field-level facts about the put descriptor -/

lemma ttlApply_Persistence (p : ProducerImpl) (md : MQMD) :
    (ttlApply p md).Persistence = md.Persistence := by
  unfold ttlApply
  split <;> rfl

lemma ttlApply_Format (p : ProducerImpl) (md : MQMD) :
    (ttlApply p md).Format = md.Format := by
  unfold ttlApply
  split <;> rfl

lemma ttlApply_ReplyToQ (p : ProducerImpl) (md : MQMD) :
    (ttlApply p md).ReplyToQ = md.ReplyToQ := by
  unfold ttlApply
  split <;> rfl

lemma ttlApply_MsgId (p : ProducerImpl) (md : MQMD) :
    (ttlApply p md).MsgId = md.MsgId := by
  unfold ttlApply
  split <;> rfl

lemma ttlApply_Expiry (p : ProducerImpl) (md : MQMD) :
    (ttlApply p md).Expiry =
      if p.timeToLive > 0 then goDiv (int32cast p.timeToLive) 100
      else md.Expiry := by
  unfold ttlApply
  split <;> simp_all

lemma finishPut_isFatal (env : MQEnv) (p : ProducerImpl) (md : MQMD)
    (opts : Nat) (buf : List UInt8) (t : List Event) (store : MQMD → Message) :
    (finishPut env p md opts buf t store).isFatal = false := by
  unfold finishPut
  rcases env.putErr <;> simp [SendResult.isFatal]

/-! ## Remaining claim theorems -/

/-- A producer configured for non-persistent delivery (fixture for the C2
counterexample). -/
def prodNP : ProducerImpl :=
  { ctx := ctxA, deliveryMode := DeliveryMode_NON_PERSISTENT, timeToLive := 0 }

/-- A previously assigned descriptor carrying reply-to metadata and a
persistent flag, as a message received from a queue would hold. -/
def mdPersist : MQMD :=
  { Persistence := MQPER_PERSISTENT, Format := MQFMT_NONE,
    Expiry := MQEI_UNLIMITED, ReplyToQ := "REPLY.Q", MsgId := "" }

/-- C2 counterexample: a producer whose delivery mode is NON_PERSISTENT
(so not PERSISTENT) sends a text message that carries a previously
assigned descriptor whose persistence flag is durable; the descriptor
used for the put is durable, although the claim requires it to be
non-durable whenever `producer.deliveryMode` is not PERSISTENT. The
adopted descriptor replaces the freshly configured one, discarding the
persistence derived from the delivery mode. -/
theorem send_persistence_counterexample :
    prodNP.deliveryMode ≠ DeliveryMode_PERSISTENT ∧
    putCalls (Send envOK prodNP destQ1
        (Message.text (some mdPersist) (some "x"))).trace =
      [({ Persistence := MQPER_PERSISTENT, Format := MQFMT_STRING,
          Expiry := MQEI_UNLIMITED, ReplyToQ := "REPLY.Q", MsgId := "" },
        MQPMO_NO_SYNCPOINT ||| MQPMO_NEW_MSG_ID, [120])] ∧
    MQPER_PERSISTENT ≠ MQPER_NOT_PERSISTENT := by
  decide

/-- **C2 (amended).** For every `Send` of a message variant that carries
no previously assigned descriptor, by a producer whose delivery mode is
one of the two permitted values, the persistence flag of the descriptor
used for the put is durable exactly when `producer.deliveryMode` is
PERSISTENT and non-durable otherwise; a freshly created producer has the
default NON_PERSISTENT mode, so it sends as non-durable. When the message
carries a previously assigned descriptor, that descriptor's own
persistence flag is used instead. -/
theorem send_persistence_amended (env : MQEnv) (producer : ProducerImpl)
    (dest : Destination) (hopen : env.openErr = none)
    (hmode : producer.deliveryMode = DeliveryMode_PERSISTENT ∨
      producer.deliveryMode = DeliveryMode_NON_PERSISTENT) :
    (∀ body, ∃ md opts buf,
      putCalls (Send env producer dest (Message.text none body)).trace =
        [(md, opts, buf)] ∧
      (md.Persistence = MQPER_PERSISTENT ↔
        producer.deliveryMode = DeliveryMode_PERSISTENT) ∧
      (md.Persistence = MQPER_PERSISTENT ∨
        md.Persistence = MQPER_NOT_PERSISTENT)) ∧
    (∀ body, ∃ md opts,
      putCalls (Send env producer dest (Message.bytes none body)).trace =
        [(md, opts, body)] ∧
      (md.Persistence = MQPER_PERSISTENT ↔
        producer.deliveryMode = DeliveryMode_PERSISTENT)) ∧
    (∀ d body, ∃ md opts buf,
      putCalls (Send env producer dest (Message.text (some d) body)).trace =
        [(md, opts, buf)] ∧
      md.Persistence = d.Persistence) ∧
    (∀ d body, ∃ md opts,
      putCalls (Send env producer dest (Message.bytes (some d) body)).trace =
        [(md, opts, body)] ∧
      md.Persistence = d.Persistence) ∧
    (∀ c, (createProducer c).deliveryMode = DeliveryMode_NON_PERSISTENT) := by
  have hiff : ((freshMD producer).Persistence = MQPER_PERSISTENT ↔
      producer.deliveryMode = DeliveryMode_PERSISTENT) ∧
      ((freshMD producer).Persistence = MQPER_PERSISTENT ∨
        (freshMD producer).Persistence = MQPER_NOT_PERSISTENT) := by
    rcases hmode with h | h <;>
      simp [freshMD, h, DeliveryMode_PERSISTENT, DeliveryMode_NON_PERSISTENT,
        MQPER_PERSISTENT, MQPER_NOT_PERSISTENT]
  refine ⟨?_, ?_, ?_, ?_, fun c => rfl⟩
  · intro body
    refine ⟨putMDText producer none, pmoOptionsOf producer, textBuf body,
      putCalls_send_text env producer dest none body hopen, ?_, ?_⟩
    · simpa [putMDText, ttlApply_Persistence, Option.getD] using hiff.1
    · simpa [putMDText, ttlApply_Persistence, Option.getD] using hiff.2
  · intro body
    refine ⟨putMDBytes producer none, pmoOptionsOf producer,
      putCalls_send_bytes env producer dest none body hopen, ?_⟩
    simpa [putMDBytes, ttlApply_Persistence, Option.getD] using hiff.1
  · intro d body
    refine ⟨putMDText producer (some d), pmoOptionsOf producer, textBuf body,
      putCalls_send_text env producer dest (some d) body hopen, ?_⟩
    simp [putMDText, ttlApply_Persistence, Option.getD]
  · intro d body
    refine ⟨putMDBytes producer (some d), pmoOptionsOf producer,
      putCalls_send_bytes env producer dest (some d) body hopen, ?_⟩
    simp [putMDBytes, ttlApply_Persistence, Option.getD]

/-- Witness for the amended C2: the freshly created default producer puts
a hello text message with the non-durable persistence flag. -/
theorem send_persistence_amended_witness :
    ∃ md opts buf,
      putCalls (Send envOK prodDefault destQ1
          (Message.text none (some "hello"))).trace = [(md, opts, buf)] ∧
      (md.Persistence = MQPER_PERSISTENT ↔
        prodDefault.deliveryMode = DeliveryMode_PERSISTENT) ∧
      (md.Persistence = MQPER_PERSISTENT ∨
        md.Persistence = MQPER_NOT_PERSISTENT) :=
  (send_persistence_amended envOK prodDefault destQ1 rfl
    (Or.inr rfl)).1 (some "hello")

/-- **C3.** For every `Send` of a text or bytes variant that already
carries a previously assigned descriptor, that descriptor is the basis of
the put (its reply-to routing metadata and persistence survive); when the
variant carries no descriptor a fresh one is used (its fields are the
library defaults, modulo the producer configuration); and after a
successful send the descriptor actually used for the put — including the
transport-generated message identifier — is stored back onto the message
variant. -/
theorem send_descriptor_adoption (env : MQEnv) (producer : ProducerImpl)
    (dest : Destination) (hopen : env.openErr = none) :
    (∀ d body, ∃ md opts buf,
      putCalls (Send env producer dest (Message.text (some d) body)).trace =
        [(md, opts, buf)] ∧
      md.ReplyToQ = d.ReplyToQ ∧ md.Persistence = d.Persistence ∧
      (env.putErr = none →
        ((Send env producer dest (Message.text (some d) body)).msgAfter
            (Message.text (some d) body)).descriptor =
          some { md with MsgId := env.genMsgId })) ∧
    (∀ d body, ∃ md opts,
      putCalls (Send env producer dest (Message.bytes (some d) body)).trace =
        [(md, opts, body)] ∧
      md.ReplyToQ = d.ReplyToQ ∧ md.Persistence = d.Persistence ∧
      (env.putErr = none →
        ((Send env producer dest (Message.bytes (some d) body)).msgAfter
            (Message.bytes (some d) body)).descriptor =
          some { md with MsgId := env.genMsgId })) ∧
    (∀ body, ∃ md opts buf,
      putCalls (Send env producer dest (Message.text none body)).trace =
        [(md, opts, buf)] ∧
      md.ReplyToQ = NewMQMD.ReplyToQ ∧ md.MsgId = NewMQMD.MsgId ∧
      (env.putErr = none →
        ((Send env producer dest (Message.text none body)).msgAfter
            (Message.text none body)).descriptor =
          some { md with MsgId := env.genMsgId })) ∧
    (∀ body, ∃ md opts,
      putCalls (Send env producer dest (Message.bytes none body)).trace =
        [(md, opts, body)] ∧
      md.ReplyToQ = NewMQMD.ReplyToQ ∧ md.MsgId = NewMQMD.MsgId ∧
      (env.putErr = none →
        ((Send env producer dest (Message.bytes none body)).msgAfter
            (Message.bytes none body)).descriptor =
          some { md with MsgId := env.genMsgId })) := by
  refine ⟨?_, ?_, ?_, ?_⟩
  · intro d body
    refine ⟨putMDText producer (some d), pmoOptionsOf producer, textBuf body,
      putCalls_send_text env producer dest (some d) body hopen, ?_, ?_, ?_⟩
    · simp [putMDText, ttlApply_ReplyToQ, Option.getD]
    · simp [putMDText, ttlApply_Persistence, Option.getD]
    · intro hput
      rw [send_text_put_ok env producer dest (some d) body hopen hput]
      simp [SendResult.msgAfter, Message.descriptor]
  · intro d body
    refine ⟨putMDBytes producer (some d), pmoOptionsOf producer,
      putCalls_send_bytes env producer dest (some d) body hopen, ?_, ?_, ?_⟩
    · simp [putMDBytes, ttlApply_ReplyToQ, Option.getD]
    · simp [putMDBytes, ttlApply_Persistence, Option.getD]
    · intro hput
      rw [send_bytes_put_ok env producer dest (some d) body hopen hput]
      simp [SendResult.msgAfter, Message.descriptor]
  · intro body
    refine ⟨putMDText producer none, pmoOptionsOf producer, textBuf body,
      putCalls_send_text env producer dest none body hopen, ?_, ?_, ?_⟩
    · simp [putMDText, ttlApply_ReplyToQ, Option.getD, freshMD, NewMQMD]
    · simp [putMDText, ttlApply_MsgId, Option.getD, freshMD, NewMQMD]
    · intro hput
      rw [send_text_put_ok env producer dest none body hopen hput]
      simp [SendResult.msgAfter, Message.descriptor]
  · intro body
    refine ⟨putMDBytes producer none, pmoOptionsOf producer,
      putCalls_send_bytes env producer dest none body hopen, ?_, ?_, ?_⟩
    · simp [putMDBytes, ttlApply_ReplyToQ, Option.getD, freshMD, NewMQMD]
    · simp [putMDBytes, ttlApply_MsgId, Option.getD, freshMD, NewMQMD]
    · intro hput
      rw [send_bytes_put_ok env producer dest none body hopen hput]
      simp [SendResult.msgAfter, Message.descriptor]

/-- Witness for C3: sending a text message that carries `mdPersist` (with
reply-to REPLY.Q) puts with reply-to preserved and, the put succeeding,
stores the put descriptor carrying the generated message id back onto the
variant. -/
theorem send_descriptor_adoption_witness :
    ∃ md opts buf,
      putCalls (Send envOK prodDefault destQ1
          (Message.text (some mdPersist) (some "x"))).trace =
        [(md, opts, buf)] ∧
      md.ReplyToQ = mdPersist.ReplyToQ ∧
      md.Persistence = mdPersist.Persistence ∧
      (envOK.putErr = none →
        ((Send envOK prodDefault destQ1
            (Message.text (some mdPersist) (some "x"))).msgAfter
              (Message.text (some mdPersist) (some "x"))).descriptor =
          some { md with MsgId := envOK.genMsgId }) :=
  (send_descriptor_adoption envOK prodDefault destQ1 rfl).1 mdPersist (some "x")

/-- **C4.** For every `Send` with a successful open of a recognized
variant, the put-options word requests syncpoint (bit of
`MQPMO_SYNCPOINT` = 2) exactly when the session's transaction mode is
TRANSACTED, requests no-syncpoint (bit of `MQPMO_NO_SYNCPOINT` = 4)
exactly otherwise, and always carries the flag requesting a newly
generated message identifier (`MQPMO_NEW_MSG_ID` = 64). -/
theorem send_syncpoint_options (env : MQEnv) (producer : ProducerImpl)
    (dest : Destination) (msg : Message) (hopen : env.openErr = none)
    (hmsg : msg ≠ Message.other) :
    ∃ md opts buf,
      putCalls (Send env producer dest msg).trace = [(md, opts, buf)] ∧
      (opts.testBit 1 = true ↔
        producer.ctx.sessionMode = JMSContextSESSIONTRANSACTED) ∧
      (opts.testBit 2 = true ↔
        producer.ctx.sessionMode ≠ JMSContextSESSIONTRANSACTED) ∧
      opts.testBit 6 = true := by
  have hbits :
      ((pmoOptionsOf producer).testBit 1 = true ↔
        producer.ctx.sessionMode = JMSContextSESSIONTRANSACTED) ∧
      ((pmoOptionsOf producer).testBit 2 = true ↔
        producer.ctx.sessionMode ≠ JMSContextSESSIONTRANSACTED) ∧
      (pmoOptionsOf producer).testBit 6 = true := by
    by_cases h : producer.ctx.sessionMode = JMSContextSESSIONTRANSACTED <;>
      simp [pmoOptionsOf, h, MQPMO_SYNCPOINT, MQPMO_NO_SYNCPOINT,
        MQPMO_NEW_MSG_ID] <;>
      refine ⟨by decide, by decide, by decide⟩
  cases msg with
  | text prior body =>
    exact ⟨putMDText producer prior, pmoOptionsOf producer, textBuf body,
      putCalls_send_text env producer dest prior body hopen,
      hbits.1, hbits.2.1, hbits.2.2⟩
  | bytes prior body =>
    exact ⟨putMDBytes producer prior, pmoOptionsOf producer, body,
      putCalls_send_bytes env producer dest prior body hopen,
      hbits.1, hbits.2.1, hbits.2.2⟩
  | other => exact absurd rfl hmsg

/-- Witness for C4: on checking a transacted and a non-transacted session
at concrete inputs, the put options carry syncpoint exactly in the
transacted case and the new-message-id flag in both. -/
theorem send_syncpoint_options_witness :
    (∃ md opts buf,
      putCalls (Send envOK prodDefault destQ1 msgHello).trace =
        [(md, opts, buf)] ∧
      (opts.testBit 1 = true ↔
        prodDefault.ctx.sessionMode = JMSContextSESSIONTRANSACTED) ∧
      (opts.testBit 2 = true ↔
        prodDefault.ctx.sessionMode ≠ JMSContextSESSIONTRANSACTED) ∧
      opts.testBit 6 = true) ∧
    (∃ md opts buf,
      putCalls (Send envOK (createProducer ctxT) destQ1 msgHello).trace =
        [(md, opts, buf)] ∧
      (opts.testBit 1 = true ↔
        (createProducer ctxT).ctx.sessionMode = JMSContextSESSIONTRANSACTED) ∧
      (opts.testBit 2 = true ↔
        (createProducer ctxT).ctx.sessionMode ≠ JMSContextSESSIONTRANSACTED) ∧
      opts.testBit 6 = true) :=
  ⟨send_syncpoint_options envOK prodDefault destQ1 msgHello rfl (by decide),
   send_syncpoint_options envOK (createProducer ctxT) destQ1 msgHello rfl
     (by decide)⟩

/-- **C5.** For every `Send` in which the open or the put fails with a
native error, the returned Error has error code equal to the decimal
string rendering of the native reason code, reason equal to the
human-readable rendering of that code, and wraps the native cause; when
the open fails, the returned error wraps the open failure (and no put is
attempted); when neither open nor put fails, `Send` returns nil. -/
theorem send_error_normalization (env : MQEnv) (producer : ProducerImpl)
    (dest : Destination) (msg : Message) :
    (∀ e, env.openErr = some e →
      (Send env producer dest msg).retErr =
        some (CreateJMSException (env.mqItoString "RC" e.MQRC)
          (toString e.MQRC) (some e)) ∧
      putCount (Send env producer dest msg).trace = 0) ∧
    (env.openErr = none → msg ≠ Message.other →
      ∀ e, env.putErr = some e →
        (Send env producer dest msg).retErr =
          some (CreateJMSException (env.mqItoString "RC" e.MQRC)
            (toString e.MQRC) (some e))) ∧
    (env.openErr = none → msg ≠ Message.other → env.putErr = none →
      (Send env producer dest msg).retErr = none) := by
  refine ⟨?_, ?_, ?_⟩
  · intro e hopen
    rw [send_open_fail env producer dest msg e hopen]
    simp [SendResult.retErr, SendResult.trace, putCount, List.filter,
      Event.isPut, openedEv]
  · intro hopen hmsg e hput
    cases msg with
    | text prior body =>
      rw [send_text_put_fail env producer dest prior body e hopen hput]
      simp [SendResult.retErr]
    | bytes prior body =>
      rw [send_bytes_put_fail env producer dest prior body e hopen hput]
      simp [SendResult.retErr]
    | other => exact absurd rfl hmsg
  · intro hopen hmsg hput
    cases msg with
    | text prior body =>
      rw [send_text_put_ok env producer dest prior body hopen hput]
      simp [SendResult.retErr]
    | bytes prior body =>
      rw [send_bytes_put_ok env producer dest prior body hopen hput]
      simp [SendResult.retErr]
    | other => exact absurd rfl hmsg

/-- Witness for C5 at concrete inputs: an open failure with reason 2085
yields the error code string 2085 wrapping the open failure and no put; a
put failure with reason 2053 yields the corresponding normalized error; a
fully successful send returns nil. -/
theorem send_error_normalization_witness :
    ((Send envOpenFail prodDefault destQ1 msgHello).retErr =
        some (CreateJMSException (envOpenFail.mqItoString "RC" 2085)
          (toString (2085 : Int)) (some openFailRet)) ∧
      putCount (Send envOpenFail prodDefault destQ1 msgHello).trace = 0) ∧
    (Send envPutFail prodDefault destQ1 msgHello).retErr =
      some (CreateJMSException (envPutFail.mqItoString "RC" 2053)
        (toString (2053 : Int)) (some putFailRet)) ∧
    (Send envOK prodDefault destQ1 msgHello).retErr = none := by
  refine ⟨?_, ?_, ?_⟩
  · exact (send_error_normalization envOpenFail prodDefault destQ1
      msgHello).1 openFailRet rfl
  · exact (send_error_normalization envPutFail prodDefault destQ1
      msgHello).2.1 rfl (by decide) putFailRet rfl
  · exact (send_error_normalization envOK prodDefault destQ1
      msgHello).2.2 rfl (by decide) rfl

/-- A producer whose time-to-live is 2^31 milliseconds (fixture for the
C6 counterexample). -/
def prodBigTTL : ProducerImpl :=
  { ctx := ctxA, deliveryMode := DeliveryMode_NON_PERSISTENT,
    timeToLive := 2147483648 }

/-- C6 counterexample: with timeToLive v = 2^31 > 0, the descriptor's
expiry is -21474836 (the source truncates v to a signed 32-bit value
before dividing, and 2^31 wraps to -2^31), not v / 100 = 21474836 as the
claim requires for every v > 0. -/
theorem send_ttl_counterexample :
    (0 : Int) < prodBigTTL.timeToLive ∧
    putCalls (Send envOK prodBigTTL destQ1
        (Message.text none (some "x"))).trace =
      [({ Persistence := MQPER_NOT_PERSISTENT, Format := MQFMT_STRING,
          Expiry := -21474836, ReplyToQ := "", MsgId := "" },
        MQPMO_NO_SYNCPOINT ||| MQPMO_NEW_MSG_ID, [120])] ∧
    (-21474836 : Int) ≠ prodBigTTL.timeToLive / 100 := by
  decide

/-- **C6 (amended).** For every producer timeToLive value v with
0 < v < 2^31, `Send` sets the put descriptor's expiry to v / 100
(milliseconds to tenth-of-a-second units; 5000 ms gives 50); values
v ≥ 2^31 are first truncated to a signed 32-bit integer by the source.
When timeToLive is 0, the expiry field is left untouched: a message
without a prior descriptor keeps the never-expires default, one with a
prior descriptor keeps that descriptor's expiry. -/
theorem send_ttl_amended (env : MQEnv) (producer : ProducerImpl)
    (dest : Destination) (hopen : env.openErr = none) :
    (∀ msg, msg ≠ Message.other →
      0 < producer.timeToLive → producer.timeToLive < 2 ^ 31 →
      ∃ md opts buf,
        putCalls (Send env producer dest msg).trace = [(md, opts, buf)] ∧
        md.Expiry = producer.timeToLive / 100) ∧
    (producer.timeToLive = 0 →
      (∀ body, ∃ md opts buf,
        putCalls (Send env producer dest (Message.text none body)).trace =
          [(md, opts, buf)] ∧ md.Expiry = MQEI_UNLIMITED) ∧
      (∀ body, ∃ md opts,
        putCalls (Send env producer dest (Message.bytes none body)).trace =
          [(md, opts, body)] ∧ md.Expiry = MQEI_UNLIMITED) ∧
      (∀ d body, ∃ md opts buf,
        putCalls (Send env producer dest (Message.text (some d) body)).trace =
          [(md, opts, buf)] ∧ md.Expiry = d.Expiry) ∧
      (∀ d body, ∃ md opts,
        putCalls (Send env producer dest (Message.bytes (some d) body)).trace =
          [(md, opts, body)] ∧ md.Expiry = d.Expiry)) := by
  constructor
  · intro msg hmsg h1 h2
    have hcast : int32cast producer.timeToLive = producer.timeToLive := by
      unfold int32cast
      omega
    have hdiv : goDiv (int32cast producer.timeToLive) 100 =
        producer.timeToLive / 100 := by
      rw [hcast]
      exact Int.tdiv_eq_ediv (le_of_lt h1) (by decide)
    cases msg with
    | text prior body =>
      refine ⟨putMDText producer prior, pmoOptionsOf producer, textBuf body,
        putCalls_send_text env producer dest prior body hopen, ?_⟩
      rw [putMDText, ttlApply_Expiry, if_pos h1, hdiv]
    | bytes prior body =>
      refine ⟨putMDBytes producer prior, pmoOptionsOf producer, body,
        putCalls_send_bytes env producer dest prior body hopen, ?_⟩
      rw [putMDBytes, ttlApply_Expiry, if_pos h1, hdiv]
    | other => exact absurd rfl hmsg
  · intro h0
    have hneg : ¬ producer.timeToLive > 0 := by omega
    refine ⟨?_, ?_, ?_, ?_⟩
    · intro body
      refine ⟨putMDText producer none, pmoOptionsOf producer, textBuf body,
        putCalls_send_text env producer dest none body hopen, ?_⟩
      rw [putMDText, ttlApply_Expiry, if_neg hneg]
      simp [freshMD, NewMQMD, Option.getD]
    · intro body
      refine ⟨putMDBytes producer none, pmoOptionsOf producer,
        putCalls_send_bytes env producer dest none body hopen, ?_⟩
      rw [putMDBytes, ttlApply_Expiry, if_neg hneg]
      simp [freshMD, NewMQMD, Option.getD]
    · intro d body
      refine ⟨putMDText producer (some d), pmoOptionsOf producer, textBuf body,
        putCalls_send_text env producer dest (some d) body hopen, ?_⟩
      rw [putMDText, ttlApply_Expiry, if_neg hneg]
      simp [Option.getD]
    · intro d body
      refine ⟨putMDBytes producer (some d), pmoOptionsOf producer,
        putCalls_send_bytes env producer dest (some d) body hopen, ?_⟩
      rw [putMDBytes, ttlApply_Expiry, if_neg hneg]
      simp [Option.getD]

/-- Witness for the amended C6: a producer with timeToLive 5000 ms puts
with descriptor expiry 50. -/
theorem send_ttl_amended_witness :
    ∃ md opts buf,
      putCalls (Send envOK (SetTimeToLive prodDefault 5000) destQ1
          msgHello).trace = [(md, opts, buf)] ∧
      md.Expiry = (SetTimeToLive prodDefault 5000).timeToLive / 100 :=
  (send_ttl_amended envOK (SetTimeToLive prodDefault 5000) destQ1 rfl).1
    msgHello (by decide) (by decide) (by decide)

/-- **C8.** For every `Send` of a text variant, the descriptor used for
the put carries the string format tag, and the put payload is the UTF-8
byte encoding of the message's text; absent (nil) text gives an empty
payload, and (the put succeeding) no error results. -/
theorem send_text_format_payload (env : MQEnv) (producer : ProducerImpl)
    (dest : Destination) (prior : Option MQMD) (body : Option String)
    (hopen : env.openErr = none) :
    ∃ md opts,
      md.Format = MQFMT_STRING ∧
      (∀ s, body = some s →
        putCalls (Send env producer dest (Message.text prior body)).trace =
          [(md, opts, s.data.flatMap String.utf8EncodeChar)]) ∧
      (body = none →
        putCalls (Send env producer dest (Message.text prior body)).trace =
          [(md, opts, [])] ∧
        (env.putErr = none →
          (Send env producer dest (Message.text prior body)).retErr =
            none)) := by
  refine ⟨putMDText producer prior, pmoOptionsOf producer, ?_, ?_, ?_⟩
  · simp [putMDText, ttlApply_Format]
  · intro s hs
    subst hs
    simpa [textBuf] using putCalls_send_text env producer dest prior (some s) hopen
  · intro hb
    subst hb
    constructor
    · simpa [textBuf] using putCalls_send_text env producer dest prior none hopen
    · intro hput
      rw [send_text_put_ok env producer dest prior none hopen hput]
      simp [SendResult.retErr]

/-- Witness for C8: sending hello puts format-string with the five UTF-8
bytes of hello; sending a nil text puts an empty payload and returns no
error. -/
theorem send_text_format_payload_witness :
    (∃ md opts,
      md.Format = MQFMT_STRING ∧
      putCalls (Send envOK prodDefault destQ1
          (Message.text none (some "hello"))).trace =
        [(md, opts, "hello".data.flatMap String.utf8EncodeChar)]) ∧
    (∃ md opts,
      putCalls (Send envOK prodDefault destQ1 (Message.text none none)).trace =
        [(md, opts, [])] ∧
      (Send envOK prodDefault destQ1 (Message.text none none)).retErr =
        none) := by
  constructor
  · obtain ⟨md, opts, hfmt, hsome, -⟩ :=
      send_text_format_payload envOK prodDefault destQ1 none (some "hello") rfl
    exact ⟨md, opts, hfmt, hsome "hello" rfl⟩
  · obtain ⟨md, opts, -, -, hnone⟩ :=
      send_text_format_payload envOK prodDefault destQ1 none none rfl
    exact ⟨md, opts, (hnone rfl).1, (hnone rfl).2 rfl⟩

/-- C9 counterexample: when the open fails, `Send` of an unrecognized
message variant does not fail hard — the dispatch is never reached and an
ordinary recoverable error (the normalized open failure) is returned,
although the claim requires a process-level fatal for any such variant on
every call. -/
theorem send_unrecognized_counterexample :
    (Send envOpenFail prodDefault destQ1 Message.other).isFatal = false ∧
    (Send envOpenFail prodDefault destQ1 Message.other).retErr =
      some (CreateJMSException "RC2085" "2085" (some openFailRet)) := by
  decide

/-- **C9 (amended).** `Send` of a text or bytes variant never reaches the
fatal branch of the type dispatch; for any other message variant, if the
open succeeded `Send` fails hard (process-level fatal, no recoverable
error) — when the open fails the dispatch is never reached and the
normalized open error is returned instead. -/
theorem send_dispatch_fatality (env : MQEnv) (producer : ProducerImpl)
    (dest : Destination) :
    (∀ prior body,
      (Send env producer dest (Message.text prior body)).isFatal = false) ∧
    (∀ prior body,
      (Send env producer dest (Message.bytes prior body)).isFatal = false) ∧
    (env.openErr = none →
      Send env producer dest Message.other =
        SendResult.fatal
          (CreateJMSException "UnexpectedMessageType"
            "UnexpectedMessageType-send1" none)
          [openedEv dest true]) ∧
    (∀ e, env.openErr = some e →
      (Send env producer dest Message.other).isFatal = false ∧
      (Send env producer dest Message.other).retErr ≠ none) := by
  refine ⟨?_, ?_, ?_, ?_⟩
  · intro prior body
    cases hopen : env.openErr with
    | none => simp [Send, hopen, finishPut_isFatal]
    | some e => simp [Send, hopen, SendResult.isFatal]
  · intro prior body
    cases hopen : env.openErr with
    | none => simp [Send, hopen, finishPut_isFatal]
    | some e => simp [Send, hopen, SendResult.isFatal]
  · intro hopen
    simp [Send, hopen, openedEv]
  · intro e hopen
    rw [send_open_fail env producer dest Message.other e hopen]
    simp [SendResult.isFatal, SendResult.retErr]

/-- Witness for the amended C9: with a successful open, a text message
does not abort while the unrecognized variant hits the fatal branch; with
a failed open the unrecognized variant returns an error instead. -/
theorem send_dispatch_fatality_witness :
    (Send envOK prodDefault destQ1 msgHello).isFatal = false ∧
    Send envOK prodDefault destQ1 Message.other =
      SendResult.fatal
        (CreateJMSException "UnexpectedMessageType"
          "UnexpectedMessageType-send1" none)
        [openedEv destQ1 true] ∧
    (Send envOpenFail prodDefault destQ1 Message.other).retErr ≠ none := by
  refine ⟨?_, ?_, ?_⟩
  · exact (send_dispatch_fatality envOK prodDefault destQ1).1 none (some "hello")
  · exact (send_dispatch_fatality envOK prodDefault destQ1).2.2.1 rfl
  · exact ((send_dispatch_fatality envOpenFail prodDefault destQ1).2.2.2
      openFailRet rfl).2

/-- **C10.** For every `Send` of a recognized variant in which the open
succeeded, the descriptor is stored onto the message variant before the
put is invoked: even when the put fails, the message afterwards carries
exactly the descriptor that was handed to the put, so a variant that
previously carried no descriptor is not left unchanged on a put error. -/
theorem send_descriptor_stored_before_put (env : MQEnv)
    (producer : ProducerImpl) (dest : Destination) (msg : Message)
    (hopen : env.openErr = none) (hmsg : msg ≠ Message.other)
    (e : MQReturn) (hput : env.putErr = some e) :
    ∃ md opts buf,
      putCalls (Send env producer dest msg).trace = [(md, opts, buf)] ∧
      ((Send env producer dest msg).msgAfter msg).descriptor = some md ∧
      (msg.descriptor = none → (Send env producer dest msg).msgAfter msg ≠ msg) := by
  cases msg with
  | text prior body =>
    refine ⟨putMDText producer prior, pmoOptionsOf producer, textBuf body,
      putCalls_send_text env producer dest prior body hopen, ?_, ?_⟩
    · rw [send_text_put_fail env producer dest prior body e hopen hput]
      simp [SendResult.msgAfter, Message.descriptor]
    · intro hd
      rw [send_text_put_fail env producer dest prior body e hopen hput]
      cases prior with
      | none => simp [SendResult.msgAfter]
      | some d => simp [Message.descriptor] at hd
  | bytes prior body =>
    refine ⟨putMDBytes producer prior, pmoOptionsOf producer, body,
      putCalls_send_bytes env producer dest prior body hopen, ?_, ?_⟩
    · rw [send_bytes_put_fail env producer dest prior body e hopen hput]
      simp [SendResult.msgAfter, Message.descriptor]
    · intro hd
      rw [send_bytes_put_fail env producer dest prior body e hopen hput]
      cases prior with
      | none => simp [SendResult.msgAfter]
      | some d => simp [Message.descriptor] at hd
  | other => exact absurd rfl hmsg

/-- Witness for C10: on a failed put of a descriptor-less text message,
the message afterwards carries the put descriptor and differs from the
original message. -/
theorem send_descriptor_stored_before_put_witness :
    ∃ md opts buf,
      putCalls (Send envPutFail prodDefault destQ1 msgHello).trace =
        [(md, opts, buf)] ∧
      ((Send envPutFail prodDefault destQ1 msgHello).msgAfter
        msgHello).descriptor = some md ∧
      (msgHello.descriptor = none →
        (Send envPutFail prodDefault destQ1 msgHello).msgAfter msgHello ≠
          msgHello) :=
  send_descriptor_stored_before_put envPutFail prodDefault destQ1 msgHello
    rfl (by decide) putFailRet rfl

end MQJMS
